import Mathlib

/-!
Shallow embedding of the Automessage repository (four Puppeteer automation
variants: the baseline `messenger.js`, the enhanced messenger in the same
file, the Facebook variant and the Apify actor variant) together with
theorems settling the frozen claims about it.

Conventions of the embedding:
* JavaScript numbers are modelled as `ℚ` (page geometry) and `ℤ`/`ℕ`
  (milliseconds, counters); `Math.random()` is an oracle stream
  `u : ℕ → ℚ` of draws in `[0, 1)`, threaded by an explicit index.
* Browser side effects are traces of primitive `Action`s; page state that a
  function merely reads (selector hits, navigation outcomes, headless flag)
  is an explicit environment record.
* Fallible operations return `Except String α`; a JavaScript `try/catch`
  becomes a `match` on that value.
-/

namespace Automessage

/-- `rand(min, max)` from all four variants:
`Math.floor(Math.random() * (max - min + 1)) + min`, with the random draw
`u ∈ [0, 1)` made explicit. -/
def jsRand (lo hi : ℤ) (u : ℚ) : ℤ :=
  ⌊u * ((hi - lo + 1 : ℤ) : ℚ)⌋ + lo

/-- A point on the page (JavaScript `{x, y}`). -/
structure Point where
  x : ℚ
  y : ℚ
deriving DecidableEq, Repr

/-- A bounding box as returned by `element.boundingBox()` when it resolves. -/
structure Box where
  x : ℚ
  y : ℚ
  width : ℚ
  height : ℚ
deriving DecidableEq, Repr

/-- Primitive browser input actions issued by the humanized input driver. -/
inductive Action where
  /-- `page.mouse.move(x, y)` (coordinates rounded by `Math.round`). -/
  | moveMouse (x y : ℤ)
  /-- `page.mouse.click(x, y, { delay })`. -/
  | mouseClick (x y : ℚ) (d : ℤ)
  /-- `element.click({ delay })`: a direct, non-path click on the element. -/
  | elementClick (d : ℤ)
  /-- `element.click({ clickCount: n })`: select-all click before typing. -/
  | clickTimes (n : ℕ)
  /-- `elementHandle.type(char)`: one per-character keystroke. -/
  | typeChar (c : Char)
  /-- `page.keyboard.press(k)`. -/
  | keyPress (k : String)
  /-- `delay(ms)`. -/
  | wait (ms : ℤ)
deriving DecidableEq, Repr

/-- One iteration body of `humanMove`'s `for` loop, unrolled over the
remaining iterations: jittered move along the line plus a short pause.
`dx`/`dy` are the per-step increments, `k` the loop counter `i`. -/
def humanMoveSteps (u : ℕ → ℚ) (dx dy : ℚ) (fr : Point) :
    ℕ → ℕ → ℕ → List Action × ℕ
  | i, _, 0 => ([], i)
  | i, k, rem + 1 =>
      let x := round (fr.x + dx * (k : ℚ) + (4 * u i - 2))
      let y := round (fr.y + dy * (k : ℚ) + (4 * u (i + 1) - 2))
      let w := jsRand 5 30 (u (i + 2))
      let next := humanMoveSteps u dx dy fr (i + 3) (k + 1) rem
      (Action.moveMouse x y :: Action.wait w :: next.1, next.2)

/-- `humanMove(page, from, to, steps)` (identical in all variants): `steps+1`
jittered pointer moves from `fr` towards `to`. All call sites pass
`steps ≥ 12`, so the `ℚ` division is never by zero. -/
def humanMove (u : ℕ → ℚ) (i : ℕ) (fr dest : Point) (steps : ℕ) :
    List Action × ℕ :=
  humanMoveSteps u ((dest.x - fr.x) / (steps : ℚ))
    ((dest.y - fr.y) / (steps : ℚ)) fr i 0 (steps + 1)

/-- The per-character typing loop shared by every `humanType` variant:
`for (const char of text) { await elementHandle.type(char); await
delay(rand(min, max)); }`. -/
def humanTypeLoop (u : ℕ → ℚ) (lo hi : ℤ) : ℕ → List Char → List Action × ℕ
  | i, [] => ([], i)
  | i, c :: cs =>
      let rest := humanTypeLoop u lo hi (i + 1) cs
      (Action.typeChar c :: Action.wait (jsRand lo hi (u i)) :: rest.1, rest.2)

/-- `humanType` of the baseline `messenger.js` (defaults `min = 100`,
`max = 200`; the enhanced messenger's `humanType` has the same body with
default `min = 80`): keystroke-by-keystroke typing with a randomized pause
after every character. -/
def humanType_messenger (u : ℕ → ℚ) (i : ℕ) (lo hi : ℤ) (text : List Char) :
    List Action × ℕ :=
  humanTypeLoop u lo hi i text

/-- `humanType` of the Facebook variant (`part_000`, defaults `min = 80`,
`max = 200`): first a triple click selecting any existing text and a pause
`rand(100, 300)`, then the per-character loop. -/
def humanType_fb (u : ℕ → ℚ) (i : ℕ) (lo hi : ℤ) (text : List Char) :
    List Action × ℕ :=
  let d0 := jsRand 100 300 (u i)
  let rest := humanTypeLoop u lo hi (i + 1) text
  (Action.clickTimes 3 :: Action.wait d0 :: rest.1, rest.2)

/-- `humanType` of the Apify actor variant (`part_001`): textually identical
to the Facebook variant's. -/
def humanType_apify (u : ℕ → ℚ) (i : ℕ) (lo hi : ℤ) (text : List Char) :
    List Action × ℕ :=
  humanType_fb u i lo hi text

/-- `humanClick(page, element)` of the enhanced messenger (`messenger.js`):
with a bounding box, a jittered target point, a humanized move from the
box's corner and a `page.mouse.click`; without one, a direct
`element.click({ delay: rand(50, 150) })` fallback. -/
def humanClick_enh (u : ℕ → ℚ) (i : ℕ) (box : Option Box) :
    List Action × ℕ :=
  match box with
  | some b =>
      let x : ℚ := b.x + b.width / 2 + (jsRand (-5) 5 (u i) : ℚ)
      let y : ℚ := b.y + b.height / 2 + (jsRand (-5) 5 (u (i + 1)) : ℚ)
      let mv := humanMove u (i + 2) ⟨b.x, b.y⟩ ⟨x, y⟩ 15
      let d := jsRand 50 150 (u mv.2)
      (mv.1 ++ [Action.mouseClick x y d], mv.2 + 1)
  | none => ([Action.elementClick (jsRand 50 150 (u i))], i + 1)

/-- `humanClick` of the Facebook variant (`part_000`): like the enhanced
messenger's but the humanized move starts at `(100, 100)`; the no-geometry
fallback is the same direct `element.click`. -/
def humanClick_fb (u : ℕ → ℚ) (i : ℕ) (box : Option Box) :
    List Action × ℕ :=
  match box with
  | some b =>
      let x : ℚ := b.x + b.width / 2 + (jsRand (-5) 5 (u i) : ℚ)
      let y : ℚ := b.y + b.height / 2 + (jsRand (-5) 5 (u (i + 1)) : ℚ)
      let mv := humanMove u (i + 2) ⟨100, 100⟩ ⟨x, y⟩ 15
      let d := jsRand 50 150 (u mv.2)
      (mv.1 ++ [Action.mouseClick x y d], mv.2 + 1)
  | none => ([Action.elementClick (jsRand 50 150 (u i))], i + 1)

/-- `humanClick` of the Apify actor variant (`part_001`): with a bounding
box, a humanized move then `element.click({ delay })`; its `if (box)` has
no `else` branch, so without bounding geometry it issues no action at all. -/
def humanClick_apify (u : ℕ → ℚ) (i : ℕ) (box : Option Box) :
    List Action × ℕ :=
  match box with
  | some b =>
      let x : ℚ := b.x + b.width / 2 + (jsRand (-5) 5 (u i) : ℚ)
      let y : ℚ := b.y + b.height / 2 + (jsRand (-5) 5 (u (i + 1)) : ℚ)
      let mv := humanMove u (i + 2) ⟨100, 100⟩ ⟨x, y⟩ 15
      let d := jsRand 50 150 (u mv.2)
      (mv.1 ++ [Action.elementClick d], mv.2 + 1)
  | none => ([], i)

/-- The characters typed by a trace, in order: the projection used to state
that typing neither reorders, drops nor duplicates characters. -/
def typedChars (t : List Action) : List Char :=
  t.filterMap fun a =>
    match a with
    | Action.typeChar c => some c
    | _ => none

/-- An opaque session artifact record captured from the browser. -/
structure Cookie where
  name : String
  value : String
deriving DecidableEq, Repr

/-- A backing store for session artifacts (cookie files of the messenger
variants, or the Apify key-value store): a key maps to nothing (absent),
or to a record that either parses to a cookie list or is corrupt/unreadable
(reading it raises the given message). -/
abbrev Store := String → Option (Except String (List Cookie))

/-- A character the filename sanitizer keeps: the regex class
`[a-z0-9_\-\.@]` with the `i` flag. -/
def isSafeEmailChar (c : Char) : Bool :=
  c.isAlpha || c.isDigit || c == '_' || c == '-' || c == '.' || c == '@'

/-- `email.replace(/[^a-z0-9_\-\.@]/gi, '_')` as used by every variant to
derive the storage key from the identity. -/
def sanitizeEmail (email : String) : String :=
  email.map fun c => if isSafeEmailChar c then c else '_'

/-- `cookieFilePathFor(email)` of the messenger variants:
`path.join(COOKIE_DIR, safe + ".json")`. -/
def cookieFilePathFor (email : String) : String :=
  "cookies/" ++ sanitizeEmail email ++ ".json"

/-- The Apify variant's key-value-store key: `cookies-` plus the sanitized
email. -/
def cookieKeyFor (email : String) : String :=
  "cookies-" ++ sanitizeEmail email

/-- `saveCookies(page, email)` of the messenger variants:
`fs.writeJson(pathToFile, cookies)` fully replaces the file's contents. -/
def saveCookies_messenger (store : Store) (email : String)
    (cookies : List Cookie) : Store :=
  fun p => if p = cookieFilePathFor email then some (Except.ok cookies)
           else store p

/-- `saveCookies(page, email)` of the Apify variant:
`keyValueStore.setValue(cookieKey, cookies)` fully replaces the value at
that key. -/
def saveCookies_apify (store : Store) (email : String)
    (cookies : List Cookie) : Store :=
  fun k => if k = cookieKeyFor email then some (Except.ok cookies)
           else store k

/-- `loadCookies(page, email)` of the messenger variants. Returns the
boolean the source returns plus the artifact set applied to the page (the
`page.setCookie` argument), `none` when none was applied. Note the source's
`try/catch` wraps only `page.setCookie`: a missing file yields `false`, but
a corrupt/unreadable file makes `fs.readJson` throw outside the `try`, so
that error propagates to the caller. -/
def loadCookies_messenger (store : Store) (setCookieFails : Bool)
    (email : String) : Except String (Bool × Option (List Cookie)) :=
  match store (cookieFilePathFor email) with
  | none => Except.ok (false, none)
  | some (Except.error msg) => Except.error msg
  | some (Except.ok cookies) =>
      if setCookieFails then Except.ok (false, none)
      else Except.ok (true, some cookies)

/-- `loadCookies(page, email)` of the Apify variant: the whole body is
inside `try/catch`, so a corrupt record or a `setCookie` failure degrades
to `false`; a missing or non-array value also yields `false`. -/
def loadCookies_apify (store : Store) (setCookieFails : Bool)
    (email : String) : Except String (Bool × Option (List Cookie)) :=
  match store (cookieKeyFor email) with
  | none => Except.ok (false, none)
  | some (Except.error _) => Except.ok (false, none)
  | some (Except.ok cookies) =>
      if setCookieFails then Except.ok (false, none)
      else Except.ok (true, some cookies)

/-- Instrumentation of one challenge-resolution invocation: which
strategies ran, how often the service or the manual loop polled, and how
many milliseconds of `delay` the resolution spent waiting. -/
structure CaptchaTrace where
  audioInvoked : Bool
  serviceInvoked : Bool
  servicePolls : ℕ
  manualEntered : Bool
  manualPolls : ℕ
  waitedMs : ℕ
deriving DecidableEq, Repr

/-- The trace of a resolution that ran no strategy at all. -/
def noCaptchaTrace : CaptchaTrace := ⟨false, false, 0, false, 0, 0⟩

/-- The manual-solve poll loop of the enhanced messenger's
`waitForManualCaptchaSolve`: poll the detection predicate every 3000 ms up
to `maxWait = 300000` ms (100 polls); a clear poll returns `true`,
exhaustion throws. Returns (outcome, polls made, milliseconds waited). -/
def waitForManualLoop (poll : ℕ → Bool) :
    ℕ → ℕ → ℕ → Except String Bool × ℕ × ℕ
  | 0, polls, waited => (Except.error "Manual CAPTCHA solve timeout", polls, waited)
  | fuel + 1, polls, waited =>
      if poll polls then waitForManualLoop poll fuel (polls + 1) (waited + 3000)
      else (Except.ok true, polls + 1, waited)

/-- `waitForManualCaptchaSolve(page)` of the enhanced messenger: when
`HEADLESS === 'true'` it returns `false` at once, without a single poll or
delay; otherwise it runs the bounded poll loop. -/
def waitForManualCaptchaSolve (headless : Bool) (poll : ℕ → Bool) :
    Except String Bool × ℕ × ℕ :=
  if headless then (Except.ok false, 0, 0)
  else waitForManualLoop poll 100 0 0

/-- Environment of `solve2Captcha`: whether `RECAPTCHA_SOLVER_API_KEY` is
set, the text of the submit response, and the text of each poll response. -/
structure TwoCaptchaEnv where
  apiKeyConfigured : Bool
  submitResult : String
  poll : ℕ → String

/-- `result.split('|')[1]` on a 2captcha response. -/
def afterBar (s : String) : String :=
  (s.splitOn "|").getD 1 ""

/-- The polling loop of `solve2Captcha`: up to 30 attempts at 10-second
intervals; `CAPCHA_NOT_READY` continues, `OK|token` succeeds, anything else
throws; exhaustion is a timeout. The 10-second delay precedes each poll. -/
def solve2CaptchaLoop (poll : ℕ → String) :
    ℕ → ℕ → ℕ → Except String String × ℕ × ℕ
  | 0, polls, waited => (Except.error "2captcha solve timeout", polls, waited)
  | fuel + 1, polls, waited =>
      let w := waited + 10000
      let result := poll polls
      if result = "CAPCHA_NOT_READY" then
        solve2CaptchaLoop poll fuel (polls + 1) w
      else if result.startsWith "OK|" then
        (Except.ok (afterBar result), polls + 1, w)
      else
        (Except.error ("2captcha solve failed: " ++ result), polls + 1, w)

/-- `solve2Captcha(page, sitekey)` of the enhanced messenger: without an
API key it returns `false` immediately (zero polls, zero wait); its own
`try/catch` converts submit failures, bad poll responses and the timeout
into `false`. On success the token is injected into the page. Returns
(solved, polls made, milliseconds waited). -/
def solve2Captcha (env : TwoCaptchaEnv) : Bool × ℕ × ℕ :=
  if !env.apiKeyConfigured then (false, 0, 0)
  else if !(env.submitResult.startsWith "OK|") then (false, 0, 0)
  else
    match solve2CaptchaLoop env.poll 30 0 0 with
    | (Except.ok _, polls, waited) => (true, polls, waited)
    | (Except.error _, polls, waited) => (false, polls, waited)

/-- Environment of the enhanced messenger's `solveCaptcha`: the page facts
each step reads. `recaptchaFrameFound` is the `page.$('iframe[src*=
"recaptcha"]')` hit, `audioSolved` the outcome of `solveRecaptchaAudio`
(which catches its own errors and returns a boolean), `sitekeyFound`
whether `[data-sitekey]` resolved (its `$eval` failure is caught to
`null`), and `manualPoll` the detection predicate at each manual poll. -/
structure EnhEnv where
  recaptchaFrameFound : Bool
  audioSolved : Bool
  sitekeyFound : Bool
  twoCaptcha : TwoCaptchaEnv
  headless : Bool
  manualPoll : ℕ → Bool

/-- `solveCaptcha(page)` of the enhanced messenger (`messenger.js`): with a
reCAPTCHA iframe it tries the audio strategy, then (when a sitekey is
found) the 2captcha service; in every remaining case — including when no
reCAPTCHA iframe is found at all — it falls through to
`waitForManualCaptchaSolve`. Its `catch` handler answers any thrown error
by calling `waitForManualCaptchaSolve` once more. -/
def solveCaptcha_enh (env : EnhEnv) : Except String Bool × CaptchaTrace :=
  let tryResult : Except String Bool × CaptchaTrace :=
    if env.recaptchaFrameFound then
      if env.audioSolved then
        (Except.ok true, ⟨true, false, 0, false, 0, 0⟩)
      else if env.sitekeyFound then
        let svc := solve2Captcha env.twoCaptcha
        if svc.1 then
          (Except.ok true, ⟨true, true, svc.2.1, false, 0, svc.2.2⟩)
        else
          let m := waitForManualCaptchaSolve env.headless env.manualPoll
          (m.1, ⟨true, true, svc.2.1, true, m.2.1, svc.2.2 + m.2.2⟩)
      else
        let m := waitForManualCaptchaSolve env.headless env.manualPoll
        (m.1, ⟨true, false, 0, true, m.2.1, m.2.2⟩)
    else
      let m := waitForManualCaptchaSolve env.headless env.manualPoll
      (m.1, ⟨false, false, 0, true, m.2.1, m.2.2⟩)
  match tryResult with
  | (Except.error _, tr) =>
      let m := waitForManualCaptchaSolve env.headless env.manualPoll
      (m.1, ⟨tr.audioInvoked, tr.serviceInvoked, tr.servicePolls, true,
             tr.manualPolls + m.2.1, tr.waitedMs + m.2.2⟩)
  | (Except.ok b, tr) => (Except.ok b, tr)

/-- Environment of the Facebook variant's `solveCaptcha` (`part_000`):
`captchaPresent` is the detection predicate (reCAPTCHA iframe or overlay
heuristic) evaluated on entry, `manualPoll` the frame check at each manual
poll. -/
structure FbCaptchaEnv where
  captchaPresent : Bool
  audioSolved : Bool
  headless : Bool
  manualPoll : ℕ → Bool

/-- The Facebook variant's manual loop: poll every 2000 ms while less than
3 minutes have elapsed (90 polls); a clear poll returns `true`, exhaustion
falls through to `false`. -/
def fbManualLoop (poll : ℕ → Bool) : ℕ → ℕ → ℕ → Bool × ℕ × ℕ
  | 0, polls, waited => (false, polls, waited)
  | fuel + 1, polls, waited =>
      if poll polls then fbManualLoop poll fuel (polls + 1) (waited + 2000)
      else (true, polls + 1, waited)

/-- `solveCaptcha(page)` of the Facebook variant (`part_000`): re-evaluates
the detection predicate first and returns `true` at once when no challenge
is present; otherwise audio strategy, then — only when not headless — the
bounded manual loop; headless skips the loop and returns `false`. -/
def solveCaptcha_fb (env : FbCaptchaEnv) : Bool × CaptchaTrace :=
  if !env.captchaPresent then (true, noCaptchaTrace)
  else if env.audioSolved then (true, ⟨true, false, 0, false, 0, 0⟩)
  else if !env.headless then
    let m := fbManualLoop env.manualPoll 90 0 0
    (m.1, ⟨true, false, 0, true, m.2.1, m.2.2⟩)
  else (false, ⟨true, false, 0, false, 0, 0⟩)

/-- Environment of the Apify variant's `solveCaptcha` (`part_001`). -/
structure ApifyCaptchaEnv where
  captchaPresent : Bool
  audioSolved : Bool

/-- `solveCaptcha(page)` of the Apify variant (`part_001`): detection
first (`true` at once when absent), then the audio strategy; when that
fails it unconditionally waits `delay(30000)` — with no headless check and
no polling — and returns `false`. -/
def solveCaptcha_apify (env : ApifyCaptchaEnv) : Bool × CaptchaTrace :=
  if !env.captchaPresent then (true, noCaptchaTrace)
  else if env.audioSolved then (true, ⟨true, false, 0, false, 0, 0⟩)
  else (false, ⟨true, false, 0, true, 0, 30000⟩)

/-- A target profile. -/
structure Profile where
  id : String
  url : String
deriving DecidableEq, Repr

/-- A delivery result object as the variants build it; fields a variant
does not set are `none`. -/
structure DResult where
  success : Bool
  profileId : String
  url : String
  durationMs : Option ℕ
  error : Option String
  message : Option String
  messageButtonPresent : Option String
  messageSent : Option String
deriving DecidableEq, Repr

/-- `message.substring(0, 50) + (message.length > 50 ? "..." : "")`. -/
def msgPreview (m : String) : String :=
  m.take 50 ++ (if m.length > 50 then "..." else "")

/-- `loginIfNeeded`'s result object. -/
structure LoginResult where
  loggedIn : Bool
  reusedCookies : Bool
deriving DecidableEq, Repr

/-- Environment of the baseline messenger's `sendMessageToProfile`: the
outcome of each fallible step on this page. `hookResult` is the
`captchaSolverHook` outcome (its boolean is ignored here; only a thrown
error matters). The humanized scroll/move/click/type actions between these
steps raise no failures. -/
structure MsgEnv where
  navResult : Except String Unit
  captchaPresent : Bool
  hookResult : Except String Bool
  messageBoxFound : Bool
  messageBoxGeom : Option Box
  sendButtonFound : Bool
  sendButtonGeom : Option Box
  confirmConfigured : Bool
  confirmFound : Bool
  elapsedMs : ℕ

/-- `sendMessageToProfile(page, profile, message, options)` of the baseline
messenger: navigate once (no retry), humanized settling, captcha hook if a
challenge is detected, message box lookup, typing, send (button or Enter
fallback), optional confirmation check. Every exit path — its whole body is
one `try/catch` — returns a structured result; a missing confirmation
selector hit is a failure. -/
def sendMessageToProfile_messenger (env : MsgEnv) (profile : Profile)
    (message : String) : DResult :=
  let body : Except String Unit :=
    match env.navResult with
    | Except.error e => Except.error e
    | Except.ok _ =>
        match (if env.captchaPresent then env.hookResult.map fun _ => ()
               else Except.ok ()) with
        | Except.error e => Except.error e
        | Except.ok _ =>
            if !env.messageBoxFound then
              Except.error "Message box not found - update messageBoxSelector"
            else if env.confirmConfigured && !env.confirmFound then
              Except.error "No confirmation that message was sent (selector not found)."
            else Except.ok ()
  match body with
  | Except.ok _ =>
      ⟨true, profile.id, profile.url, some env.elapsedMs, none, none, none, none⟩
  | Except.error e =>
      ⟨false, profile.id, profile.url, some env.elapsedMs, some e, none, none, none⟩

/-- Environment of the Apify variant's `sendMessageToProfile`: `nav n`
tells whether navigation attempt `n` (1-based) reaches a loaded page,
`navErrMsg` is the message of the last navigation error. The fields
`isContentEditable` and `sendButtonFound` select between action paths
(typing style; send button versus Enter fallback) that build the same
result record. -/
structure ApifyMsgEnv where
  nav : ℕ → Bool
  navErrMsg : String
  loginRequired : Bool
  messageButtonFound : Bool
  messageInputFound : Bool
  isContentEditable : Bool
  sendButtonFound : Bool
  elapsedMs : ℕ

/-- The Apify variant's navigation retry loop
(`while (!navigationSuccess && attempt < maxAttempts)` with
`maxAttempts = 3`): each iteration increments `attempt`, a failure at the
last attempt throws, otherwise the loop pauses and retries. Returns the
final value of `attempt` on success. `fuel` is `maxAttempts - attempt`. -/
def navLoop (nav : ℕ → Bool) (errMsg : String) (maxAttempts : ℕ) :
    ℕ → ℕ → Except String ℕ
  | 0, attempt => Except.ok attempt
  | fuel + 1, attempt =>
      let a := attempt + 1
      if nav a then Except.ok a
      else if a = maxAttempts then
        Except.error ("Failed to load profile after " ++ toString maxAttempts
          ++ " attempts: " ++ errMsg)
      else navLoop nav errMsg maxAttempts fuel a

/-- `sendMessageToProfile(page, profile, message, email)` of the Apify
variant (`part_001`): cookie reload, navigation with the 3-attempt retry
loop, login re-check (a required login fails this target without
re-authenticating), message-button lookup and click (setting
`messageButtonPresent`), input lookup, typing and send (either path sets
`messageSent`). Its inner `catch` rewrites button/input failures to
"Profile unavailable or no messaging option found"; the outer `catch`
returns a structured failure carrying the current diagnostic flags.
Returns the result together with the final values of the source's
`attempt` counter and `navigationSuccess` flag. -/
def sendMessageToProfile_apify (env : ApifyMsgEnv) (profile : Profile)
    (message : String) : DResult × ℕ × Bool :=
  match navLoop env.nav env.navErrMsg 3 3 0 with
  | Except.error e =>
      (⟨false, profile.id, profile.url, some env.elapsedMs, some e, none,
        some "No", some "No"⟩, 3, false)
  | Except.ok attempts =>
      if env.loginRequired then
        (⟨false, profile.id, profile.url, some env.elapsedMs,
          some "Login required - please check credentials", none,
          some "No", some "No"⟩, attempts, true)
      else if env.messageButtonFound then
        if env.messageInputFound then
          (⟨true, profile.id, profile.url, some env.elapsedMs, none,
            some (msgPreview message), some "Yes", some "Yes"⟩, attempts, true)
        else
          (⟨false, profile.id, profile.url, some env.elapsedMs,
            some "Profile unavailable or no messaging option found", none,
            some "Yes", some "No"⟩, attempts, true)
      else
        (⟨false, profile.id, profile.url, some env.elapsedMs,
          some "Profile unavailable or no messaging option found", none,
          some "No", some "No"⟩, attempts, true)

/-- The failure record the baseline messenger's per-profile `catch` builds:
`{ success: false, profileId, url, error }`. -/
def messengerFail (p : Profile) (e : String) : DResult :=
  ⟨false, p.id, p.url, none, some e, none, none, none⟩

/-- The failure record the Apify actor's per-profile `catch` builds,
including the fabricated diagnostic flags. -/
def actorFail (p : Profile) (e : String) : DResult :=
  ⟨false, p.id, p.url, none, some e, none, some "No", some "No"⟩

/-- The per-target iteration shared by `processAll` and the actor's main
loop: each profile's delivery either returns a result or raises, and the
loop's `try/catch` turns a raised fault into the variant's failure record;
either way exactly one record is appended and iteration continues. -/
def processProfiles (deliver : Profile → Except String DResult)
    (failRec : Profile → String → DResult) : List Profile → List DResult
  | [] => []
  | p :: ps =>
      (match deliver p with
       | Except.ok r => r
       | Except.error e => failRec p e) :: processProfiles deliver failRec ps

/-- `processAll(profiles, message, options)` of the baseline messenger:
`loginIfNeeded` runs first inside the outer `try`, whose `catch` rethrows —
a login failure aborts the run before any profile is processed (the
`finally` closes the browser either way); on success the per-profile loop
runs to completion. -/
def processAll_messenger (login : Except String LoginResult)
    (deliver : Profile → Except String DResult) (profiles : List Profile) :
    Except String (List DResult) :=
  match login with
  | Except.error e => Except.error e
  | Except.ok _ => Except.ok (processProfiles deliver messengerFail profiles)

/-- The Apify actor's main flow (`Actor.main`): session establishment
(navigate home, reload cookies, login if required) is wrapped in its own
`try/catch` whose handler only logs "continuing anyway" — so the
per-profile loop runs whether or not the session could be established. -/
def actorMain (sessionSetup : Except String Unit)
    (deliver : Profile → Except String DResult) (profiles : List Profile) :
    Except String (List DResult) :=
  match sessionSetup with
  | Except.error _ => Except.ok (processProfiles deliver actorFail profiles)
  | Except.ok _ => Except.ok (processProfiles deliver actorFail profiles)

/-! ## Helper lemmas -/

/-- `rand(min, max)` lies in the inclusive range `[min, max]` for any
random draw `u ∈ [0, 1)`. -/
theorem jsRand_bounds (lo hi : ℤ) (u : ℚ) (h0 : 0 ≤ u) (h1 : u < 1)
    (hle : lo ≤ hi) : lo ≤ jsRand lo hi u ∧ jsRand lo hi u ≤ hi := by
  have hk : (0 : ℚ) < ((hi - lo + 1 : ℤ) : ℚ) := by
    have hc : ((lo : ℚ)) ≤ ((hi : ℚ)) := by exact_mod_cast hle
    push_cast
    linarith
  constructor
  · have hf : (0 : ℤ) ≤ ⌊u * ((hi - lo + 1 : ℤ) : ℚ)⌋ :=
      Int.floor_nonneg.mpr (mul_nonneg h0 hk.le)
    unfold jsRand
    omega
  · have hlt : u * ((hi - lo + 1 : ℤ) : ℚ) < ((hi - lo + 1 : ℤ) : ℚ) :=
      mul_lt_of_lt_one_left hk h1
    have hf : ⌊u * ((hi - lo + 1 : ℤ) : ℚ)⌋ < hi - lo + 1 :=
      Int.floor_lt.mpr hlt
    unfold jsRand
    omega

/-- The per-character typing loop types exactly the given text, in order. -/
theorem humanTypeLoop_typedChars (u : ℕ → ℚ) (lo hi : ℤ) :
    ∀ (text : List Char) (i : ℕ),
      typedChars (humanTypeLoop u lo hi i text).1 = text := by
  intro text
  induction text with
  | nil => intro i; rfl
  | cons c cs ih =>
      intro i
      simp only [humanTypeLoop, typedChars, List.filterMap_cons]
      simpa [typedChars] using ih (i + 1)

/-- Every pause the per-character typing loop inserts lies in `[lo, hi]`. -/
theorem humanTypeLoop_wait_mem (u : ℕ → ℚ) (lo hi : ℤ)
    (hu : ∀ j, 0 ≤ u j ∧ u j < 1) (hle : lo ≤ hi) :
    ∀ (text : List Char) (i : ℕ) (w : ℤ),
      Action.wait w ∈ (humanTypeLoop u lo hi i text).1 → lo ≤ w ∧ w ≤ hi := by
  intro text
  induction text with
  | nil => intro i w hw; simp [humanTypeLoop] at hw
  | cons c cs ih =>
      intro i w hw
      simp only [humanTypeLoop, List.mem_cons] at hw
      rcases hw with h | h | h
      · exact absurd h (by simp)
      · rcases h with ⟨hwv⟩
        exact jsRand_bounds lo hi (u i) (hu i).1 (hu i).2 hle
      · exact ih (i + 1) w h

/-- In the typing loop's trace, every per-character keystroke is
immediately followed by one randomized pause. -/
theorem humanTypeLoop_wait_after (u : ℕ → ℚ) (lo hi : ℤ) :
    ∀ (text : List Char) (i n : ℕ) (c : Char),
      (humanTypeLoop u lo hi i text).1[n]? = some (Action.typeChar c) →
      ∃ j, (humanTypeLoop u lo hi i text).1[n + 1]? =
        some (Action.wait (jsRand lo hi (u j))) := by
  intro text
  induction text with
  | nil => intro i n c h; simp [humanTypeLoop] at h
  | cons c' cs ih =>
      intro i n c h
      match n with
      | 0 => exact ⟨i, by simp [humanTypeLoop]⟩
      | 1 => simp [humanTypeLoop] at h
      | n + 2 =>
          simp only [humanTypeLoop, List.getElem?_cons_succ] at h ⊢
          exact ih (i + 1) n c h

/-- The per-target loop appends one result per profile, carrying that
profile's id, in the profiles' order. -/
theorem processProfiles_profileIds (deliver : Profile → Except String DResult)
    (failRec : Profile → String → DResult)
    (hf : ∀ p e, (failRec p e).profileId = p.id)
    (hid : ∀ p r, deliver p = Except.ok r → r.profileId = p.id) :
    ∀ ps : List Profile,
      (processProfiles deliver failRec ps).map DResult.profileId =
        ps.map Profile.id := by
  intro ps
  induction ps with
  | nil => rfl
  | cons p ps ih =>
      rcases h : deliver p with e | r
      · simpa [processProfiles, h, hf p e] using ih
      · simpa [processProfiles, h, hid p r h] using ih

/-- The per-target loop produces exactly as many results as profiles. -/
theorem processProfiles_length (deliver : Profile → Except String DResult)
    (failRec : Profile → String → DResult) :
    ∀ ps : List Profile,
      (processProfiles deliver failRec ps).length = ps.length := by
  intro ps
  induction ps with
  | nil => rfl
  | cons p ps ih => simp [processProfiles, ih]

/-! ## Claims -/

/-- Claim C10 (confirmed): `humanType` issues exactly one per-character
type action per character of the text, in order (never reordering,
dropping or duplicating), each immediately followed by a pause drawn from
the inclusive configured range — `[100, 200]` ms under the baseline
messenger's defaults, `[80, 200]` ms under the other variants' defaults
(whose traces open with the select-all click and its `[100, 300]` ms
pause, dropped before inspecting the per-character pauses). -/
theorem C10_humanType_per_char (u : ℕ → ℚ) (text : List Char)
    (hu : ∀ j, 0 ≤ u j ∧ u j < 1) :
    typedChars (humanType_messenger u 0 100 200 text).1 = text ∧
    (∀ w, Action.wait w ∈ (humanType_messenger u 0 100 200 text).1 →
      100 ≤ w ∧ w ≤ 200) ∧
    (∀ n c, (humanType_messenger u 0 100 200 text).1[n]? =
        some (Action.typeChar c) →
      ∃ j, (humanType_messenger u 0 100 200 text).1[n + 1]? =
        some (Action.wait (jsRand 100 200 (u j)))) ∧
    typedChars (humanType_fb u 0 80 200 text).1 = text ∧
    (∀ w, Action.wait w ∈ (humanType_fb u 0 80 200 text).1.drop 2 →
      80 ≤ w ∧ w ≤ 200) ∧
    typedChars (humanType_apify u 0 80 200 text).1 = text ∧
    (∀ w, Action.wait w ∈ (humanType_apify u 0 80 200 text).1.drop 2 →
      80 ≤ w ∧ w ≤ 200) := by
  have hfb : (humanType_fb u 0 80 200 text).1.drop 2 =
      (humanTypeLoop u 80 200 1 text).1 := rfl
  refine ⟨humanTypeLoop_typedChars u 100 200 text 0,
    fun w hw => humanTypeLoop_wait_mem u 100 200 hu (by norm_num) text 0 w hw,
    fun n c h => humanTypeLoop_wait_after u 100 200 text 0 n c h,
    ?_, ?_, ?_, ?_⟩
  · simp only [humanType_fb, typedChars, List.filterMap_cons]
    simpa [typedChars] using humanTypeLoop_typedChars u 80 200 text 1
  · rw [hfb]
    exact fun w hw => humanTypeLoop_wait_mem u 80 200 hu (by norm_num) text 1 w hw
  · simp only [humanType_apify, humanType_fb, typedChars, List.filterMap_cons]
    simpa [typedChars] using humanTypeLoop_typedChars u 80 200 text 1
  · rw [show (humanType_apify u 0 80 200 text).1.drop 2 =
        (humanTypeLoop u 80 200 1 text).1 from rfl]
    exact fun w hw => humanTypeLoop_wait_mem u 80 200 hu (by norm_num) text 1 w hw

/-- Witness for C10 at the constant draw `1/2` and the text `"hi"`. -/
theorem C10_humanType_per_char_witness :
    typedChars (humanType_messenger (fun _ => (1 : ℚ)/2) 0 100 200
      ['h', 'i']).1 = ['h', 'i'] ∧
    typedChars (humanType_fb (fun _ => (1 : ℚ)/2) 0 80 200
      ['h', 'i']).1 = ['h', 'i'] := by
  have h := C10_humanType_per_char (fun _ => (1 : ℚ)/2) ['h', 'i']
    (fun j => ⟨by norm_num, by norm_num⟩)
  exact ⟨h.1, h.2.2.2.1⟩

/-- Counterexample for C8 as stated: in the Apify variant, a humanized
click on an element whose bounding geometry does not resolve issues no
action at all — no direct fallback click happens. -/
theorem C8_humanClick_counterexample :
    (humanClick_apify (fun _ => 0) 0 none).1 = [] ∧
    Action.elementClick (jsRand 50 150 0) ∉
      (humanClick_apify (fun _ => 0) 0 none).1 := by
  exact ⟨rfl, by simp [humanClick_apify]⟩

/-- Claim C8 (corrected): when bounding geometry cannot be resolved, the
enhanced-messenger and Facebook variants fall back to a direct
`element.click` and complete; the Apify variant's `humanClick` has no
`else` branch and silently performs no interaction. -/
theorem C8_humanClick_fallback (u : ℕ → ℚ) (i : ℕ) :
    (humanClick_enh u i none).1 =
      [Action.elementClick (jsRand 50 150 (u i))] ∧
    (humanClick_fb u i none).1 =
      [Action.elementClick (jsRand 50 150 (u i))] ∧
    (humanClick_apify u i none).1 = [] :=
  ⟨rfl, rfl, rfl⟩

/-- Unrolling the Apify navigation retry loop at its call site
(`maxAttempts = 3`, starting from attempt 0): success at the first clear
attempt, failure after three failed ones. -/
theorem navLoop_three (nav : ℕ → Bool) (msg : String) :
    navLoop nav msg 3 3 0 =
      (if nav 1 then Except.ok 1
       else if nav 2 then Except.ok 2
       else if nav 3 then Except.ok 3
       else Except.error ("Failed to load profile after 3 attempts: " ++ msg)) := by
  simp only [navLoop]
  rfl

/-- Claim C1 (confirmed): whenever the per-target iteration completes, the
results sequence carries exactly one result per target, in the targets'
order, no matter which deliveries fail or raise — in both the messenger
`processAll` loop and the Apify actor loop. -/
theorem C1_one_result_per_target (deliver : Profile → Except String DResult)
    (ps : List Profile)
    (hid : ∀ p r, deliver p = Except.ok r → r.profileId = p.id) :
    (processProfiles deliver messengerFail ps).map DResult.profileId =
      ps.map Profile.id ∧
    (processProfiles deliver actorFail ps).map DResult.profileId =
      ps.map Profile.id ∧
    (processProfiles deliver messengerFail ps).length = ps.length ∧
    (processProfiles deliver actorFail ps).length = ps.length :=
  ⟨processProfiles_profileIds deliver messengerFail (fun _ _ => rfl) hid ps,
   processProfiles_profileIds deliver actorFail (fun _ _ => rfl) hid ps,
   processProfiles_length deliver messengerFail ps,
   processProfiles_length deliver actorFail ps⟩

/-- Witness for C1: two targets whose deliveries both raise still yield one
result per target, in order. -/
theorem C1_one_result_per_target_witness :
    (processProfiles (fun _ => Except.error "boom") messengerFail
      [⟨"t1", "u1"⟩, ⟨"t2", "u2"⟩]).map DResult.profileId = ["t1", "t2"] :=
  (C1_one_result_per_target (fun _ => Except.error "boom")
    [⟨"t1", "u1"⟩, ⟨"t2", "u2"⟩] (fun _ _ h => nomatch h)).1

set_option maxRecDepth 8192 in
/-- Counterexample for C2 as stated: after two transient navigation
failures and a third-attempt success (everything else succeeding too),
the produced Delivery Result is exactly the record shown — its only
diagnostic flags are `messageButtonPresent`/`messageSent` and it carries
no attempt count anywhere — and it is identical, field for field, to the
result produced when navigation succeeds on the very first attempt. The
result's diagnostics therefore cannot report "exactly 3 navigation
attempts"; the attempt number appears only in the per-attempt console
log. -/
theorem C2_result_counterexample :
    (sendMessageToProfile_apify
      ⟨fun n => n == 3, "net::ERR_TIMED_OUT", false, true, true, false, true,
        1500⟩ ⟨"t1", "u1"⟩ "hi").1 =
      ⟨true, "t1", "u1", some 1500, none, some "hi", some "Yes",
        some "Yes"⟩ ∧
    (sendMessageToProfile_apify
      ⟨fun n => n == 3, "net::ERR_TIMED_OUT", false, true, true, false, true,
        1500⟩ ⟨"t1", "u1"⟩ "hi").1 =
    (sendMessageToProfile_apify
      ⟨fun _ => true, "net::ERR_TIMED_OUT", false, true, true, false, true,
        1500⟩ ⟨"t1", "u1"⟩ "hi").1 := by
  refine ⟨?_, ?_⟩ <;> decide

/-- Claim C2 (corrected): two transient navigation failures followed by a
success leave the Apify delivery's `navigationSuccess` flag true — the
delivery does not fail on navigation, whatever the later steps do — and
its `attempt` counter at exactly 3; that counter is reported only in the
per-attempt console log, not in the Delivery Result, which is identical
to the one produced when navigation succeeds on the first attempt. -/
theorem C2_nav_retry_three_attempts (env : ApifyMsgEnv) (p : Profile)
    (m : String) (h1 : env.nav 1 = false) (h2 : env.nav 2 = false)
    (h3 : env.nav 3 = true) :
    (sendMessageToProfile_apify env p m).2.2 = true ∧
    (sendMessageToProfile_apify env p m).2.1 = 3 ∧
    (sendMessageToProfile_apify env p m).1 =
      (sendMessageToProfile_apify
        ⟨fun _ => true, env.navErrMsg, env.loginRequired,
         env.messageButtonFound, env.messageInputFound,
         env.isContentEditable, env.sendButtonFound, env.elapsedMs⟩
        p m).1 := by
  unfold sendMessageToProfile_apify
  rw [navLoop_three, navLoop_three, h1, h2, h3]
  simp only [if_false, if_true, Bool.false_eq_true, Bool.true_eq_false]
  split_ifs <;> simp

/-- Witness for C2: a concrete page where only the third attempt loads. -/
theorem C2_nav_retry_three_attempts_witness :
    (sendMessageToProfile_apify
      ⟨fun n => n == 3, "net::ERR_TIMED_OUT", false, true, true, false, true,
        1500⟩ ⟨"t1", "u1"⟩ "hi").2.1 = 3 :=
  (C2_nav_retry_three_attempts
    ⟨fun n => n == 3, "net::ERR_TIMED_OUT", false, true, true, false, true,
      1500⟩ ⟨"t1", "u1"⟩ "hi" rfl rfl rfl).2.1

/-- Counterexample for C3 as stated: in the Apify actor, a failure while
establishing the session (login phase) is caught by its own
`catch`/“continuing anyway” handler — the run is not aborted, and the
target is still processed (here its delivery raises, yielding the loop's
structured failure record). -/
theorem C3_actor_counterexample :
    actorMain (Except.error "Login failed: Still on login page")
      (fun _ => Except.error "navigation crashed")
      [⟨"t1", "https://www.facebook.com/t1"⟩] =
    Except.ok
      [actorFail ⟨"t1", "https://www.facebook.com/t1"⟩ "navigation crashed"] :=
  rfl

/-- Claim C3 (corrected): per-target failures are converted into
structured results at the delivery boundary in every variant, and in the
messenger variants a login-phase failure aborts the whole run with no
target processed; the Apify actor instead swallows session-establishment
failures and processes every target regardless. -/
theorem C3_failure_boundaries :
    (∀ (e : String) (deliver : Profile → Except String DResult)
        (ps : List Profile),
      processAll_messenger (Except.error e) deliver ps = Except.error e) ∧
    (∀ (lr : LoginResult) (deliver : Profile → Except String DResult)
        (ps : List Profile),
      processAll_messenger (Except.ok lr) deliver ps =
        Except.ok (processProfiles deliver messengerFail ps) ∧
      (processProfiles deliver messengerFail ps).length = ps.length) ∧
    (∀ (env : MsgEnv) (p : Profile) (m : String),
      (sendMessageToProfile_messenger env p m).success = true ∨
      (sendMessageToProfile_messenger env p m).error.isSome = true) ∧
    (∀ (setup : Except String Unit)
        (deliver : Profile → Except String DResult) (ps : List Profile),
      actorMain setup deliver ps =
        Except.ok (processProfiles deliver actorFail ps) ∧
      (processProfiles deliver actorFail ps).length = ps.length) := by
  refine ⟨fun e d ps => rfl,
    fun lr d ps => ⟨rfl, processProfiles_length d messengerFail ps⟩, ?_, ?_⟩
  · intro env p m
    rcases env with ⟨nav, cap, hook, mbf, mbg, sbf, sbg, cc, cf, el⟩
    rcases nav with e | u <;> rcases hook with e' | b <;>
      cases cap <;> cases mbf <;> cases cc <;> cases cf <;>
      simp [sendMessageToProfile_messenger, Except.map]
  · intro setup d ps
    cases setup <;> exact ⟨rfl, processProfiles_length d actorFail ps⟩

/-- Claim C4 (code_bug): with no prior save both load implementations
return the absent signal, and the Apify load degrades a corrupt record to
absent as well — but the messenger variants' `loadCookies` lets the
`readJson` failure on a corrupt cookie file escape (its `try/catch` wraps
only `page.setCookie`), so load raises instead of returning absent. -/
theorem C4_load_absent_vs_corrupt :
    loadCookies_messenger (fun _ => none) false "u@x.com" =
      Except.ok (false, none) ∧
    loadCookies_apify (fun _ => none) false "u@x.com" =
      Except.ok (false, none) ∧
    loadCookies_messenger
      (fun p => if p = cookieFilePathFor "u@x.com"
        then some (Except.error "Unexpected end of JSON input") else none)
      false "u@x.com" = Except.error "Unexpected end of JSON input" ∧
    loadCookies_apify
      (fun k => if k = cookieKeyFor "u@x.com"
        then some (Except.error "Unexpected end of JSON input") else none)
      false "u@x.com" = Except.ok (false, none) := by
  refine ⟨rfl, rfl, ?_, ?_⟩ <;>
    simp [loadCookies_messenger, loadCookies_apify]

/-- Claim C7 (confirmed): saving twice for the same identity then loading
returns exactly the second artifact set — full replacement, never a merge —
in both the file-based and the key-value-store implementation; other
identities' records are untouched. -/
theorem C7_save_last_write_wins (st : Store) (e : String)
    (c1 c2 : List Cookie) :
    loadCookies_messenger
      (saveCookies_messenger (saveCookies_messenger st e c1) e c2) false e =
      Except.ok (true, some c2) ∧
    loadCookies_apify
      (saveCookies_apify (saveCookies_apify st e c1) e c2) false e =
      Except.ok (true, some c2) ∧
    (∀ p, p ≠ cookieFilePathFor e → saveCookies_messenger st e c2 p = st p) ∧
    (∀ k, k ≠ cookieKeyFor e → saveCookies_apify st e c2 k = st k) := by
  refine ⟨?_, ?_, ?_, ?_⟩
  · simp [loadCookies_messenger, saveCookies_messenger]
  · simp [loadCookies_apify, saveCookies_apify]
  · intro p hp; simp [saveCookies_messenger, hp]
  · intro k hk; simp [saveCookies_apify, hk]

/-- Witness for C7 at a concrete identity and two concrete artifact sets. -/
theorem C7_save_last_write_wins_witness :
    loadCookies_messenger (saveCookies_messenger (saveCookies_messenger
      (fun _ => none) "u@x.com" [⟨"sid", "1"⟩]) "u@x.com" [⟨"sid", "2"⟩])
      false "u@x.com" = Except.ok (true, some [⟨"sid", "2"⟩]) ∧
    saveCookies_messenger (fun _ => none) "u@x.com" [⟨"sid", "2"⟩]
      "elsewhere" = none := by
  have h := C7_save_last_write_wins (fun _ => none) "u@x.com"
    [⟨"sid", "1"⟩] [⟨"sid", "2"⟩]
  exact ⟨h.1, h.2.2.1 "elsewhere" (by decide)⟩

/-- Claim C9 (confirmed): in the Apify variant every delivery result —
including the orchestrator's fabricated catch-path records — satisfies the
flag invariant: `messageSent = "Yes"` only with
`messageButtonPresent = "Yes"`, and any failure before the message button
is clicked (navigation exhausted, login required, or no button) leaves
both flags `"No"`. -/
theorem C9_diagnostic_flags (env : ApifyMsgEnv) (p : Profile) (m : String) :
    ((sendMessageToProfile_apify env p m).1.messageSent = some "Yes" →
      (sendMessageToProfile_apify env p m).1.messageButtonPresent =
        some "Yes") ∧
    ((env.nav 1 = false ∧ env.nav 2 = false ∧ env.nav 3 = false) ∨
        env.loginRequired = true ∨ env.messageButtonFound = false →
      (sendMessageToProfile_apify env p m).1.messageButtonPresent =
        some "No" ∧
      (sendMessageToProfile_apify env p m).1.messageSent = some "No") ∧
    (∀ e, (actorFail p e).messageButtonPresent = some "No" ∧
      (actorFail p e).messageSent = some "No") := by
  refine ⟨?_, ?_, fun e => ⟨rfl, rfl⟩⟩ <;>
  · rcases env with ⟨nav, nem, lr, mbf, mif, ice, sbf, el⟩
    cases h1 : nav 1 <;> cases h2 : nav 2 <;> cases h3 : nav 3 <;>
      cases lr <;> cases mbf <;> cases mif <;>
      simp [sendMessageToProfile_apify, navLoop_three, h1, h2, h3]

/-- Witness for C9: a successful delivery has both flags `"Yes"`; a
delivery stopped by the login check has both flags `"No"`. -/
theorem C9_diagnostic_flags_witness :
    (sendMessageToProfile_apify
      ⟨fun _ => true, "", false, true, true, true, true, 100⟩
      ⟨"t1", "u1"⟩ "hi").1.messageButtonPresent = some "Yes" ∧
    (sendMessageToProfile_apify
      ⟨fun _ => true, "", true, true, true, true, true, 100⟩
      ⟨"t1", "u1"⟩ "hi").1.messageSent = some "No" :=
  ⟨(C9_diagnostic_flags
      ⟨fun _ => true, "", false, true, true, true, true, 100⟩
      ⟨"t1", "u1"⟩ "hi").1 rfl,
   ((C9_diagnostic_flags
      ⟨fun _ => true, "", true, true, true, true, true, 100⟩
      ⟨"t1", "u1"⟩ "hi").2.1 (Or.inr (Or.inl rfl))).2⟩

/-- Counterexample for C5 as stated: the Apify variant's resolver, with a
challenge present and the audio strategy yielding no answer, spends a
30000 ms pause before returning unresolved — the manual wait is entered
unconditionally (there is no headless check in this variant), not skipped
immediately. -/
theorem C5_apify_counterexample :
    solveCaptcha_apify ⟨true, false⟩ =
      (false, ⟨true, false, 0, true, 0, 30000⟩) ∧
    (solveCaptcha_apify ⟨true, false⟩).2.waitedMs = 30000 :=
  ⟨rfl, rfl⟩

/-- Claim C5 (corrected): when Strategy 1 yields no answer, the delegated
service is unconfigured and the session is headless, the enhanced
messenger and the Facebook variant return unresolved with zero manual
polls and zero wait (the poll loop is skipped immediately); the Apify
variant also returns unresolved but only after its unconditional 30-second
pause. -/
theorem C5_headless_no_block (eEnv : EnhEnv) (fEnv : FbCaptchaEnv)
    (aEnv : ApifyCaptchaEnv) (he1 : eEnv.audioSolved = false)
    (he2 : eEnv.twoCaptcha.apiKeyConfigured = false)
    (he3 : eEnv.headless = true) (hf1 : fEnv.captchaPresent = true)
    (hf2 : fEnv.audioSolved = false) (hf3 : fEnv.headless = true)
    (ha1 : aEnv.captchaPresent = true) (ha2 : aEnv.audioSolved = false) :
    (solveCaptcha_enh eEnv).1 = Except.ok false ∧
    (solveCaptcha_enh eEnv).2.manualPolls = 0 ∧
    (solveCaptcha_enh eEnv).2.waitedMs = 0 ∧
    solveCaptcha_fb fEnv = (false, ⟨true, false, 0, false, 0, 0⟩) ∧
    (solveCaptcha_apify aEnv).1 = false ∧
    (solveCaptcha_apify aEnv).2.waitedMs = 30000 := by
  cases hrf : eEnv.recaptchaFrameFound <;>
    cases hsk : eEnv.sitekeyFound <;>
    simp [solveCaptcha_enh, solve2Captcha, waitForManualCaptchaSolve,
      solveCaptcha_fb, solveCaptcha_apify, he1, he2, he3, hrf, hsk,
      hf1, hf2, hf3, ha1, ha2]

/-- Witness for C5 at concrete environments (challenge present, audio
fails, no API key, headless). -/
theorem C5_headless_no_block_witness :
    (solveCaptcha_enh ⟨true, false, true,
      ⟨false, "OK|1", fun _ => "CAPCHA_NOT_READY"⟩, true,
      fun _ => true⟩).1 = Except.ok false ∧
    (solveCaptcha_enh ⟨true, false, true,
      ⟨false, "OK|1", fun _ => "CAPCHA_NOT_READY"⟩, true,
      fun _ => true⟩).2.waitedMs = 0 := by
  have h := C5_headless_no_block
    ⟨true, false, true, ⟨false, "OK|1", fun _ => "CAPCHA_NOT_READY"⟩, true,
      fun _ => true⟩
    ⟨true, false, true, fun _ => true⟩ ⟨true, false⟩
    rfl rfl rfl rfl rfl rfl rfl rfl
  exact ⟨h.1, h.2.2.1⟩

/-- Counterexample for C6 as stated: the enhanced messenger's
`solveCaptcha`, invoked when the detection predicate is false (no
reCAPTCHA iframe, headless session), does not return cleared — it falls
through to the manual-intervention step and yields unresolved. -/
theorem C6_enh_counterexample :
    (solveCaptcha_enh ⟨false, false, false, ⟨false, "", fun _ => ""⟩, true,
      fun _ => false⟩).1 = Except.ok false ∧
    (solveCaptcha_enh ⟨false, false, false, ⟨false, "", fun _ => ""⟩, true,
      fun _ => false⟩).2.manualEntered = true :=
  ⟨rfl, rfl⟩

/-- Claim C6 (corrected): the Facebook and Apify variants re-evaluate the
detection predicate and, when it is false, return cleared immediately with
zero strategies invoked and zero wait; the enhanced messenger's resolver
performs no such check — invoked with no challenge present it skips the
audio and service strategies but always enters the manual-intervention
step, returning unresolved when the session is headless. -/
theorem C6_detection_false (fEnv : FbCaptchaEnv) (aEnv : ApifyCaptchaEnv)
    (eEnv : EnhEnv) (hf : fEnv.captchaPresent = false)
    (ha : aEnv.captchaPresent = false)
    (he : eEnv.recaptchaFrameFound = false) :
    solveCaptcha_fb fEnv = (true, noCaptchaTrace) ∧
    solveCaptcha_apify aEnv = (true, noCaptchaTrace) ∧
    (solveCaptcha_enh eEnv).2.audioInvoked = false ∧
    (solveCaptcha_enh eEnv).2.serviceInvoked = false ∧
    (solveCaptcha_enh eEnv).2.manualEntered = true ∧
    (eEnv.headless = true → (solveCaptcha_enh eEnv).1 = Except.ok false) := by
  refine ⟨by simp [solveCaptcha_fb, hf], by simp [solveCaptcha_apify, ha],
    ?_, ?_, ?_, ?_⟩
  · rcases hm : waitForManualCaptchaSolve eEnv.headless eEnv.manualPoll
      with ⟨r, pw⟩
    cases r <;> simp [solveCaptcha_enh, he, hm]
  · rcases hm : waitForManualCaptchaSolve eEnv.headless eEnv.manualPoll
      with ⟨r, pw⟩
    cases r <;> simp [solveCaptcha_enh, he, hm]
  · rcases hm : waitForManualCaptchaSolve eEnv.headless eEnv.manualPoll
      with ⟨r, pw⟩
    cases r <;> simp [solveCaptcha_enh, he, hm]
  · intro hh
    simp [solveCaptcha_enh, he, hh, waitForManualCaptchaSolve]

/-- Witness for C6 at concrete environments with the detection predicate
false. -/
theorem C6_detection_false_witness :
    solveCaptcha_fb ⟨false, false, true, fun _ => false⟩ =
      (true, noCaptchaTrace) ∧
    (solveCaptcha_enh ⟨false, false, false, ⟨false, "", fun _ => ""⟩, true,
      fun _ => false⟩).1 = Except.ok false := by
  have h := C6_detection_false ⟨false, false, true, fun _ => false⟩
    ⟨false, false⟩
    ⟨false, false, false, ⟨false, "", fun _ => ""⟩, true, fun _ => false⟩
    rfl rfl rfl
  exact ⟨h.1, h.2.2.2.2.2 rfl⟩

end Automessage
